import Mathlib

/-!
Shallow embedding of the wavy ALSA playback backend
(`src/ffi/linux/speakers.rs`, `src/ffi/linux/device_list.rs`).

Native ALSA calls (`writei`, `prepare`, `resume`, `state`, `poll_descriptors`,
…) are modelled by an environment record supplying each call's outcome; the
embedding records which native calls the code path performs, so that claims
about "no native call is made" or "exactly one retry" are statable.
Process-terminating paths (`std::process::exit`, `panic!`, `unreachable!`,
`.unwrap()` failures) are modelled by a `fatal` outcome.
-/

namespace Wavy

/-- Model of `fon::chan::Ch32` (a 32-bit float sample).  Claims only depend on
buffer lengths and on the fill value `Ch32::MID`, so an integer model with
`MID = 0` suffices. -/
abbrev Ch32 := Int

/-- `Ch32::MID`. -/
def Ch32.MID : Ch32 := 0

/-- Modelled from the spec: `SndPcmState`, the ALSA stream-state enumeration
returned by the native `query-stream-state` call (declared in the backend
module not present under `src/`); `poll` only distinguishes `Xrun` from the
rest. -/
inductive SndPcmState where
  | open_
  | setup
  | prepared
  | running
  | xrun
  | draining
  | paused
  | suspended
  | disconnected
deriving DecidableEq, Repr

/-- `AudioDevice` from `device_list.rs`: raw pointers are modelled as opaque
numeric identifiers, and `smelling_salts::Device` descriptors as raw fd
numbers. -/
structure AudioDevice where
  /-- Human-readable name for the device. -/
  name : String
  /-- PCM pointer for the device. -/
  pcm : Nat
  /-- Hardware-parameters pointer for the device. -/
  hwp : Nat
  /-- Bitflags for numbers of channels (which of 1-8 are supported). -/
  supported : Nat
  /-- File descriptors associated with this device. -/
  fds : List Nat
deriving DecidableEq, Repr

/-- `AudioDevice::start`.  `descriptors` is the outcome of the native
`pcm::poll_descriptors` call (`none` = error).  The outer `Option` models the
`assert!(self.fds.is_empty())`: `none` is the assertion panic.  The inner
`Option Unit` is the Rust return value. -/
def AudioDevice.start (descriptors : Option (List Nat)) (d : AudioDevice) :
    Option (Option Unit × AudioDevice) :=
  if d.fds.isEmpty then
    match descriptors with
    | none => some (none, d)
    | some fdList => some (some (), { d with fds := fdList })
  else
    none

/-- The `Speakers` scheduler state from `speakers.rs`.  The resampler carry
frame `[Ch32; 6]` is modelled as a list of samples and the `f64` fractional
phase as a rational (the code only moves the phase value around; claims are
about that data flow, not about float arithmetic). -/
structure Speakers where
  /-- ALSA PCM type for both speakers and microphones. -/
  device : AudioDevice
  /-- Index into audio frames to start writing. -/
  starti : Nat
  /-- Raw buffer of audio yet to be played. -/
  buffer : List Ch32
  /-- Resampler context for speakers sink: carry frame and fractional phase. -/
  resampler : List Ch32 × ℚ
  /-- The number of frames in the buffer. -/
  period : Nat
  /-- Number of available channels. -/
  channels : Nat
  /-- The sample rate of the speakers. -/
  sample_rate : Option ℚ
  /-- Speakers are locked (a live sink exists). -/
  locked : Bool
deriving DecidableEq, Repr

/-- `SoundDevice::pcm` for `Speakers`. -/
def Speakers.pcm (s : Speakers) : Nat := s.device.pcm

/-- `SoundDevice::hwp` for `Speakers`.  The source returns `self.device.pcm`
(not `self.device.hwp`). -/
def Speakers.hwp (s : Speakers) : Nat := s.device.pcm

/-- `Speakers::from(AudioDevice)`. -/
def Speakers.fromDevice (device : AudioDevice) : Speakers where
  device := device
  starti := 0
  buffer := []
  sample_rate := none
  channels := 0
  resampler := (List.replicate 6 Ch32.MID, 0)
  period := 0
  locked := false

/-- Outcome of one `poll` call.  `fatal` covers every process-terminating
path, tagged with which one. -/
inductive FatalReason where
  /-- `process::exit(1)` after "Tried to poll speakers before dropping sink". -/
  | reentrancy
  /-- `assert!(self.fds.is_empty())` failing inside `start`. -/
  | startAssert
  /-- `Vec::drain` past the end of the buffer. -/
  | drainPanic
  /-- `.unwrap()` on a failed `prepare` during recovery. -/
  | prepareUnwrap
  /-- `.unwrap()` on a failed retried `writei` during recovery. -/
  | retryUnwrap
  /-- `unreachable!()` for a non-Xrun state on `-EPIPE`. -/
  | badState
  /-- `unreachable!()` on `-EBADFD`. -/
  | badFd
  /-- `unreachable!()` on any other error code. -/
  | unknownErr
deriving DecidableEq, Repr

/-- `Poll<()>` together with the fatal paths. -/
inductive PollResult where
  | ready
  | pending
  | fatal (reason : FatalReason)
deriving DecidableEq, Repr

/-- Native calls `poll` can perform, in order. -/
inductive NativeCall where
  | writei
  | stateQuery
  | prepare
  | resume
  | pollDescriptors
deriving DecidableEq, Repr

/-- Environment for one `poll` call: outcomes of the individual native calls
and of each descriptor's `should_yield`.  `write1`/`write2` are the first and
the retried `writei` (`Except` error codes are the negative ALSA errnos). -/
structure PollEnv where
  /-- Outcome of `pcm::poll_descriptors` inside `start`. -/
  descriptors : Option (List Nat)
  /-- `should_yield()` per descriptor. -/
  shouldYield : Nat → Bool
  /-- Outcome of the first `writei`. -/
  write1 : Except Int Nat
  /-- Outcome of `pcm::state`. -/
  pcmState : SndPcmState
  /-- Outcome of `pcm::resume` (its value is discarded by the code). -/
  resumeResult : Except Int Unit
  /-- Outcome of `pcm::prepare`. -/
  prepareResult : Except Int Unit
  /-- Outcome of the retried `writei`. -/
  write2 : Except Int Nat

/-- Full outcome of a `poll` call: the `Poll` value, the state after the
call, the native calls performed, and the descriptors whose waker was
registered. -/
structure PollOut where
  result : PollResult
  state : Speakers
  calls : List NativeCall
  wakers : List Nat
deriving Repr

/-- `Vec::resize(n, v)`. -/
def listResize (l : List Ch32) (n : Nat) (v : Ch32) : List Ch32 :=
  if n ≤ l.length then l.take n else l ++ List.replicate (n - l.length) v

/-- The buffer-shift epilogue of `poll` (lines 263-270 of `speakers.rs`):
drain the played samples, recompute `starti`, refill to one period, lock.
`none` models the `Vec::drain` panic when `len * channels` exceeds the
buffer length. -/
def Speakers.shiftBuffer (s : Speakers) (len : Nat) : Option Speakers :=
  if len * s.channels ≤ s.buffer.length then
    let drained := s.buffer.drop (len * s.channels)
    some { s with
      buffer := listResize drained (s.period * s.channels) Ch32.MID
      starti := drained.length / s.channels
      locked := true }
  else
    none

/-- The recovery retry shared by the `-EPIPE`/Xrun and `-ESTRPIPE` arms:
`prepare(..).unwrap(); writei(..).unwrap()`, then fall through to the
buffer shift.  `callsSoFar` is the call trace up to the retry. -/
def Speakers.retryTransfer (env : PollEnv) (s : Speakers)
    (callsSoFar : List NativeCall) : PollOut :=
  match env.prepareResult with
  | .error _ => ⟨.fatal .prepareUnwrap, s, callsSoFar ++ [.prepare], []⟩
  | .ok _ =>
    match env.write2 with
    | .error _ =>
        ⟨.fatal .retryUnwrap, s, callsSoFar ++ [.prepare, .writei], []⟩
    | .ok len =>
      match s.shiftBuffer len with
      | none => ⟨.fatal .drainPanic, s, callsSoFar ++ [.prepare, .writei], []⟩
      | some s2 => ⟨.ready, s2, callsSoFar ++ [.prepare, .writei], []⟩

/-- `<Speakers as Future>::poll`. -/
def Speakers.poll (env : PollEnv) (s : Speakers) : PollOut :=
  -- Safety: reentrancy guard.
  if s.locked then
    ⟨.fatal .reentrancy, s, [], []⟩
  -- If speaker is unconfigured, return Ready to configure and play.
  else if s.channels = 0 then
    match s.device.start env.descriptors with
    | none => ⟨.fatal .startAssert, s, [.pollDescriptors], []⟩
    | some (_, dev) =>
        ⟨.ready, { s with device := dev, locked := true },
          [.pollDescriptors], []⟩
  -- Check if not woken, then yield.
  else if s.device.fds.all (fun fd => env.shouldYield fd) then
    ⟨.pending, s, [], []⟩
  else
    -- Attempt to write remaining internal speaker buffer to the speakers.
    match env.write1 with
    | .ok len =>
      match s.shiftBuffer len with
      | none => ⟨.fatal .drainPanic, s, [.writei], []⟩
      | some s2 => ⟨.ready, s2, [.writei], []⟩
    | .error e =>
      if e = -11 then
        -- EAGAIN: register waker on every fd, then return not ready.
        ⟨.pending, s, [.writei], s.device.fds⟩
      else if e = -32 then
        -- EPIPE: check the stream state.
        match env.pcmState with
        | .xrun => s.retryTransfer env [.writei, .stateQuery]
        | _ => ⟨.fatal .badState, s, [.writei, .stateQuery], []⟩
      else if e = -77 then
        ⟨.fatal .badFd, s, [.writei], []⟩
      else if e = -86 then
        -- ESTRPIPE: resume best-effort (result discarded), then recover.
        s.retryTransfer env [.writei, .resume]
      else
        ⟨.fatal .unknownErr, s, [.writei], []⟩

/-! ## Channel configuration, sink creation and sink drop -/

/-- Modelled from the spec: the outcome of a successful `pcm_hw_params`
negotiation (a shared helper of the backend module not present under `src/`).
It renegotiates hardware parameters for the given channel count, resizing the
working buffer and writing back the sample rate and the period length; the
spec invariant is `len(workingBuffer) == periodFrames × configuredChannels`. -/
structure HwParams where
  buffer : List Ch32
  sample_rate : Option ℚ
  period : Nat
deriving DecidableEq, Repr

/-- `Speakers::set_channels::<F>` with `F::CHAN_COUNT = c`.  `hw` is the
outcome of the `pcm_hw_params` call (`none` = negotiation failure).  The
outer `Option` models the `panic!("Unknown speaker configuration")`; the
returned `Bool` mirrors the Rust `Option<bool>` (inner `none` = negotiation
failure propagated by `?`); the final `Bool` records whether `pcm_hw_params`
was invoked. -/
def Speakers.set_channels (c : Nat) (hw : Option HwParams) (s : Speakers) :
    Option (Option Bool × Speakers × Bool) :=
  if c ≠ s.channels then
    if c = 1 ∨ c = 2 ∨ c = 6 then
      -- channels is assigned before `pcm_hw_params` runs.
      let s1 := { s with channels := c }
      match hw with
      | none => some (none, s1, true)
      | some p =>
          some (some true,
            { s1 with
              buffer := p.buffer
              sample_rate := p.sample_rate
              period := p.period }, true)
    else
      none
  else
    some (some false, s, false)

/-- Model of a `fon::Resampler<F>` instance as the sink carries it: the
channel values of its carry frame and its fractional index.  The fon library
is an external collaborator; only construction inputs and the extracted
carry/index matter to the claims. -/
structure ResamplerM where
  carry : List Ch32
  index : ℚ
deriving DecidableEq, Repr

/-- Model of a `SpeakersSink<F>` lease: the raw back-pointer is replaced by
explicit state passing, so the sink holds just its resampler instance. -/
structure SpeakersSink where
  resampler : ResamplerM
deriving DecidableEq, Repr

/-- `Speakers::play::<F>` with `F::CHAN_COUNT = c`.  `conv` stands for the
fon conversion `Surround32::from_channels(&self.resampler.0[..]).convert()`
into the frame shape `F` (external library math, taken as a parameter).
`none` models the two panic paths (`set_channels` panic and the `.expect` on
its `None`). -/
def Speakers.play (c : Nat) (hw : Option HwParams)
    (conv : List Ch32 → List Ch32) (s : Speakers) :
    Option (SpeakersSink × Speakers) :=
  match s.set_channels c hw with
  | none => none
  | some (none, _, _) => none
  | some (some _, s2, _) =>
      some (⟨⟨conv s2.resampler.1, s2.resampler.2⟩⟩, s2)

/-- `Speakers::channels` (the supported-channel bitmask accessor). -/
def Speakers.channelsAccessor (s : Speakers) : Nat := s.device.supported

/-- `<SpeakersSink<F> as Drop>::drop`.  `frameChannels` stands for
`self.1.frame().convert().channels()[0..=5]` (the fon conversion of the
resampler's carry frame to 5.1 surround), and `mod1` for the `f64`
`% 1.0` on the resampler's index — both external library math, taken as
parameters.  Writes carry and phase back into the speakers' resampler state
and clears the lock. -/
def SpeakersSink.drop (frameChannels : ResamplerM → List Ch32)
    (mod1 : ℚ → ℚ) (sink : SpeakersSink) (s : Speakers) : Speakers :=
  { s with
    resampler := (frameChannels sink.resampler, mod1 sink.resampler.index)
    locked := false }

/-! ## Device enumeration (`device_list.rs`) -/

/-- One ALSA device hint as `device_list_internal` reads it: the NAME string
(`none` models a name whose bytes are not valid UTF-8, the `Err` branch of
`CStr::to_str`), the DESC string, and the IOID string (`none` models a null
IOID pointer, meaning bidirectional). -/
structure Hint where
  name : Option String
  desc : String
  ioid : Option String
deriving DecidableEq, Repr

/-- Rust `str::starts_with` on the underlying characters. -/
def strStartsWith (s p : String) : Bool := p.data.isPrefixOf s.data

/-- Rust `str::replace` specialised to a single-character pattern, as the
source uses it (`replace("\n", ": ")`): every occurrence of `c` in `s` is
replaced by `to`. -/
def strReplaceChar (s : String) (c : Char) (repl : String) : String :=
  ⟨s.data.foldr (fun a acc => if a = c then repl.data ++ acc else a :: acc) []⟩

/-- First byte of the IOID C string equals `c` (`*(io.cast::<u8>())`). -/
def firstByteIs (c : Char) (s : String) : Bool :=
  match s.data with
  | [] => false
  | a :: _ => a = c

/-- `is_input` for a hint: null IOID or leading `'I'`. -/
def Hint.isInput (h : Hint) : Bool :=
  match h.ioid with
  | none => true
  | some s => firstByteIs 'I' s

/-- `is_output` for a hint: null IOID or leading `'O'`. -/
def Hint.isOutput (h : Hint) : Bool :=
  match h.ioid with
  | none => true
  | some s => firstByteIs 'O' s

/-- A native allocation made while enumerating: which hint (by index) and
which of its strings, or the hint list itself. -/
inductive Alloc where
  /-- The hint list from `snd_device_name_hint`. -/
  | hintList
  /-- The NAME string of hint `i`. -/
  | nameStr (i : Nat)
  /-- The DESC string of hint `i`. -/
  | descStr (i : Nat)
  /-- The IOID string of hint `i`. -/
  | ioidStr (i : Nat)
deriving DecidableEq, Repr

/-- Allocation/free events in program order. -/
inductive AllocEvent where
  | alloc (a : Alloc)
  | free (a : Alloc)
deriving DecidableEq, Repr

/-- The per-hint body of the `while` loop in `device_list_internal`
(`input` = `D::INPUT`, `openResult` = the outcome of `open` for this hint,
`i` = the hint's index).  Returns the device pushed (if any) and the
allocation/free events of this iteration, in program order. -/
def processHint (input : Bool) (openResult : Option (Nat × Nat × Nat))
    (i : Nat) (h : Hint) : Option AudioDevice × List AllocEvent :=
  -- Allocate 2 C strings describing the device (NAME, IOID; IOID may be
  -- null, in which case nothing is allocated for it).
  let headEvents := [AllocEvent.alloc (.nameStr i)] ++
    (if h.ioid.isSome then [AllocEvent.alloc (.ioidStr i)] else [])
  -- Convert description to a Rust String; `continue` on filtered entries.
  let filtered :=
    match h.name with
    | some x => strStartsWith x "sysdefault" || x = "null"
    | none => false
  if filtered then
    -- `continue` skips the frees of NAME and IOID.
    (none, headEvents)
  else
    let nameAndEvents : String × List AllocEvent :=
      match h.name with
      | some "default" => ("Default", [])
      | _ =>
          -- DESC is allocated, converted, and freed at once.
          (strReplaceChar h.desc '\n' ": ",
            [AllocEvent.alloc (.descStr i), AllocEvent.free (.descStr i)])
    let ioFree : List AllocEvent :=
      if h.ioid.isSome then [AllocEvent.free (.ioidStr i)] else []
    let pushed : Option AudioDevice :=
      if (input && h.isInput) || (!input && h.isOutput) then
        match openResult with
        | some (pcm, hwp, supported) =>
            some ⟨nameAndEvents.1, pcm, hwp, supported, []⟩
        | none => none
      else
        none
    (pushed,
      headEvents ++ nameAndEvents.2 ++ ioFree ++ [AllocEvent.free (.nameStr i)])

/-- The `while !(*n).is_null()` loop of `device_list_internal`, indexed from
`i`.  `openOf i` is the outcome of `open` for the hint at index `i`. -/
def hintLoop (input : Bool) (openOf : Nat → Option (Nat × Nat × Nat))
    (i : Nat) : List Hint → List AudioDevice × List AllocEvent
  | [] => ([], [])
  | h :: rest =>
      let (dev, events) := processHint input (openOf i) i h
      let (devs, moreEvents) := hintLoop input openOf (i + 1) rest
      (dev.elim devs (· :: devs), events ++ moreEvents)

/-- `device_list_internal` (`device_list.rs` lines 129-213).  `hints = none`
models `snd_device_name_hint` failing (early return, nothing allocated).
Returns the device list and the allocation/free event trace. -/
def device_list_internal (input : Bool)
    (openOf : Nat → Option (Nat × Nat × Nat))
    (hints : Option (List Hint)) : List AudioDevice × List AllocEvent :=
  match hints with
  | none => ([], [])
  | some hs =>
      let (devs, events) := hintLoop input openOf 0 hs
      (devs,
        [AllocEvent.alloc .hintList] ++ events ++ [AllocEvent.free .hintList])

/-- The allocations in a trace that are never freed. -/
def leakedAllocs (events : List AllocEvent) : List Alloc :=
  (events.filterMap fun e => match e with | .alloc a => some a | .free _ => none)
    |>.filter fun a => !events.contains (.free a)

/-! ## Sample states used to instantiate theorems on concrete inputs -/

/-- A concrete device without descriptors. -/
def devNoFds : AudioDevice := ⟨"Default", 1, 2, 255, []⟩

/-- A concrete device with one registered descriptor. -/
def devOneFd : AudioDevice := ⟨"Default", 1, 2, 255, [5]⟩

/-- A concrete configured stereo speakers state (period 2, so the working
buffer holds 4 samples). -/
def spkStereo : Speakers :=
  { device := devOneFd
    starti := 0
    buffer := [1, 2, 3, 4]
    resampler := (List.replicate 6 Ch32.MID, 0)
    period := 2
    channels := 2
    sample_rate := some 48000
    locked := false }

/-- A concrete environment where every call succeeds and descriptors are
woken. -/
def envBase : PollEnv :=
  { descriptors := some [5]
    shouldYield := fun _ => false
    write1 := .ok 1
    pcmState := .xrun
    resumeResult := .ok ()
    prepareResult := .ok ()
    write2 := .ok 1 }

/-- Environment simulating an `-EPIPE` underrun with a succeeding retry. -/
def envXrun : PollEnv := { envBase with write1 := .error (-32) }

/-- Environment simulating `-ESTRPIPE` suspension with a failing retry. -/
def envSusp : PollEnv :=
  { envBase with write1 := .error (-86), write2 := .error (-32) }

/-- Environment where every descriptor reports not-ready. -/
def envAllYield : PollEnv := { envBase with shouldYield := fun _ => true }

/-- Environment where the write would block (`-EAGAIN`). -/
def envEagain : PollEnv := { envBase with write1 := .error (-11) }

/-- The early-filter predicate of the hint loop: names starting with
"sysdefault" and the name "null" are skipped (an invalid-UTF-8 name is not
filtered; it falls through to the description arm). -/
def Hint.filtered (h : Hint) : Bool :=
  match h.name with
  | some x => strStartsWith x "sysdefault" || x = "null"
  | none => false

/-- Specification-side description of the per-hint outcome, following the
spec's words: skip "sysdefault"-prefixed and "null" entries; only hints
matching the requested direction are attempted; a hint that fails to open is
silently excluded; the "default" entry is renamed to the fixed label
"Default"; every other display name is the hint's description with embedded
newlines replaced by ": ". -/
def enumerateSpecHint (input : Bool)
    (openOf : Nat → Option (Nat × Nat × Nat)) (i : Nat) (h : Hint) :
    Option AudioDevice :=
  if h.filtered then none
  else if !((input && h.isInput) || (!input && h.isOutput)) then none
  else
    (openOf i).map fun t =>
      ⟨if h.name = some "default" then "Default"
        else strReplaceChar h.desc '\n' ": ", t.1, t.2.1, t.2.2, []⟩

/-- Specification-side description of enumeration: a filter-map of
`enumerateSpecHint` over the indexed hints. -/
def enumerateSpec (input : Bool) (openOf : Nat → Option (Nat × Nat × Nat))
    (hints : List Hint) : List AudioDevice :=
  hints.enum.filterMap fun ih => enumerateSpecHint input openOf ih.1 ih.2

/-- The hint scenario of the spec's test property: "default",
"sysdefault:Card0", "null" (all bidirectional) and an output-only
"hw:Card1,0" described as "USB Audio". -/
def scenarioHints : List Hint :=
  [⟨some "default", "Default Audio Device", none⟩,
   ⟨some "sysdefault:Card0", "Default Audio Device", none⟩,
   ⟨some "null", "Discard all samples", none⟩,
   ⟨some "hw:Card1,0", "USB Audio", some "Output"⟩]

/-- The "sysdefault" hint used as the failing input for the leak claim. -/
def sysdefaultHint : Hint := ⟨some "sysdefault:Card0", "Dup", some "Output"⟩

/-- A well-formed output hint that fails to open. -/
def failingOpenHint : Hint := ⟨some "hw:Card1,0", "USB Audio", some "Output"⟩


/-! ## Helper lemmas -/

/-- `Vec::resize` always produces the requested length. -/
theorem listResize_length (l : List Ch32) (n : Nat) (v : Ch32) :
    (listResize l n v).length = n := by
  unfold listResize
  split
  · simpa using by omega
  · simp
    omega

/-- A successful buffer shift locks the speakers. -/
theorem shiftBuffer_locked {s : Speakers} {len : Nat} {s2 : Speakers}
    (h : s.shiftBuffer len = some s2) : s2.locked = true := by
  unfold Speakers.shiftBuffer at h
  split at h
  · exact (Option.some.inj h) ▸ rfl
  · exact absurd h (by simp)

/-- The explicit form of a successful buffer shift. -/
theorem shiftBuffer_of_le {s : Speakers} {len : Nat}
    (h : len * s.channels ≤ s.buffer.length) :
    s.shiftBuffer len = some { s with
      buffer := listResize (s.buffer.drop (len * s.channels))
        (s.period * s.channels) Ch32.MID
      starti := (s.buffer.drop (len * s.channels)).length / s.channels
      locked := true } := by
  unfold Speakers.shiftBuffer
  simp [h]

/-- The recovery retry leaves the state unchanged or locks it. -/
theorem retryTransfer_locked (env : PollEnv) (s : Speakers)
    (calls : List NativeCall) :
    (s.retryTransfer env calls).state = s ∨
      (s.retryTransfer env calls).state.locked = true := by
  unfold Speakers.retryTransfer
  split
  · exact Or.inl rfl
  · split
    · exact Or.inl rfl
    · split
      · exact Or.inl rfl
      · next hs => exact Or.inr (shiftBuffer_locked hs)

/-- `poll` leaves the state unchanged or locks it; in particular it never
clears the reentrancy guard. -/
theorem poll_state_locked (env : PollEnv) (s : Speakers) :
    (s.poll env).state = s ∨ (s.poll env).state.locked = true := by
  unfold Speakers.poll
  split
  · exact Or.inl rfl
  · split
    · rcases hs : s.device.start env.descriptors with _ | p
      · exact Or.inl rfl
      · exact Or.inr rfl
    · split
      · exact Or.inl rfl
      · rcases hw : env.write1 with e | len
        · simp only
          split
          · exact Or.inl rfl
          · split
            · rcases env.pcmState <;>
                first
                  | exact Or.inl rfl
                  | exact retryTransfer_locked env s _
            · split
              · exact Or.inl rfl
              · split
                · exact retryTransfer_locked env s _
                · exact Or.inl rfl
        · simp only
          rcases hs : s.shiftBuffer len with _ | s2
          · exact Or.inl rfl
          · exact Or.inr (shiftBuffer_locked hs)

/-- `set_channels` never touches the resampler state or the lock. -/
theorem set_channels_resampler_locked (c : Nat) (hw : Option HwParams)
    (s : Speakers) (r : Option Bool × Speakers × Bool)
    (h : s.set_channels c hw = some r) :
    r.2.1.resampler = s.resampler ∧ r.2.1.locked = s.locked := by
  unfold Speakers.set_channels at h
  split at h
  · split at h
    · rcases hw with _ | p
      · exact (Option.some.inj h) ▸ ⟨rfl, rfl⟩
      · exact (Option.some.inj h) ▸ ⟨rfl, rfl⟩
    · exact absurd h (by simp)
  · exact (Option.some.inj h) ▸ ⟨rfl, rfl⟩

/-! ## Claims -/

/-- C10: the capability-trait accessor `hwp()` returns the same pointer as
`pcm()` — the native device handle field `device.pcm` — rather than the
session's hardware-parameters field `device.hwp`. -/
theorem C10_hwp_returns_pcm (s : Speakers) :
    s.hwp = s.pcm ∧ s.pcm = s.device.pcm ∧
      (s.device.pcm ≠ s.device.hwp → s.hwp ≠ s.device.hwp) :=
  ⟨rfl, rfl, fun h => h⟩

theorem C10_hwp_returns_pcm_witness :
    (Speakers.fromDevice devNoFds).hwp ≠
      (Speakers.fromDevice devNoFds).device.hwp :=
  (C10_hwp_returns_pcm (Speakers.fromDevice devNoFds)).2.2 (by decide)

/-- C5: requesting a frame shape with channel count `c` different from the
configured count panics unless `c ∈ {1, 2, 6}`; for a valid differing `c`
hardware parameters are renegotiated (the call flag is set and the
negotiated buffer, sample rate and period are installed) and the configured
channel count becomes `c`; a request equal to the current configuration
performs no renegotiation and leaves the state unchanged. -/
theorem C5_set_channels_contract (s : Speakers) (c : Nat) (hw : Option HwParams) :
    (c ≠ s.channels → ¬(c = 1 ∨ c = 2 ∨ c = 6) →
      s.set_channels c hw = none) ∧
    (c ≠ s.channels → (c = 1 ∨ c = 2 ∨ c = 6) → ∀ r,
      s.set_channels c hw = some r → r.2.1.channels = c ∧ r.2.2 = true) ∧
    (c ≠ s.channels → (c = 1 ∨ c = 2 ∨ c = 6) → ∀ p, hw = some p →
      s.set_channels c hw = some (some true,
        { s with
          channels := c
          buffer := p.buffer
          sample_rate := p.sample_rate
          period := p.period }, true)) ∧
    (c = s.channels → s.set_channels c hw = some (some false, s, false)) := by
  refine ⟨fun hne hval => ?_, fun hne hval r hr => ?_, fun hne hval p hp => ?_,
    fun he => ?_⟩
  · unfold Speakers.set_channels
    simp [hne, hval]
  · unfold Speakers.set_channels at hr
    rw [if_pos hne, if_pos hval] at hr
    rcases hw with _ | p
    · exact (Option.some.inj hr) ▸ ⟨rfl, rfl⟩
    · exact (Option.some.inj hr) ▸ ⟨rfl, rfl⟩
  · subst hp
    unfold Speakers.set_channels
    rw [if_pos hne, if_pos hval]
  · unfold Speakers.set_channels
    simp [he]

theorem C5_set_channels_contract_witness :
    spkStereo.set_channels 3 none = none ∧
    spkStereo.set_channels 6 (some ⟨List.replicate 12 Ch32.MID, some 48000, 2⟩) =
      some (some true,
        { spkStereo with
          channels := 6
          buffer := List.replicate 12 Ch32.MID
          sample_rate := some 48000
          period := 2 }, true) ∧
    spkStereo.set_channels 2 none = some (some false, spkStereo, false) :=
  ⟨(C5_set_channels_contract spkStereo 3 none).1 (by decide) (by decide),
   (C5_set_channels_contract spkStereo 6
      (some ⟨List.replicate 12 Ch32.MID, some 48000, 2⟩)).2.2.1
      (by decide) (by simp) _ rfl,
   (C5_set_channels_contract spkStereo 2 none).2.2.2 rfl⟩

/-- C4: if the reentrancy guard is set when `poll` is invoked, the step
reports the violation and halts (no native call, state unchanged); `poll`
itself never clears the guard (a cleared guard after `poll` means it was
already clear and the state is untouched), channel reconfiguration never
touches it, and the sink's synchronous drop clears it. -/
theorem C4_reentrancy_guard (s : Speakers) (env : PollEnv)
    (frameChannels : ResamplerM → List Ch32) (mod1 : ℚ → ℚ)
    (sink : SpeakersSink) (c : Nat) (hw : Option HwParams) :
    (s.locked = true →
      s.poll env = ⟨.fatal .reentrancy, s, [], []⟩) ∧
    ((s.poll env).state.locked = false → (s.poll env).state = s) ∧
    (∀ r, s.set_channels c hw = some r → r.2.1.locked = s.locked) ∧
    (sink.drop frameChannels mod1 s).locked = false := by
  refine ⟨fun h => ?_, fun h => ?_, fun r hr =>
    (set_channels_resampler_locked c hw s r hr).2, rfl⟩
  · unfold Speakers.poll
    simp [h]
  · rcases poll_state_locked env s with he | hl
    · exact he
    · rw [h] at hl
      exact absurd hl (by simp)

theorem C4_reentrancy_guard_witness :
    Speakers.poll envBase { spkStereo with locked := true } =
      ⟨.fatal .reentrancy, { spkStereo with locked := true }, [], []⟩ ∧
    (SpeakersSink.drop (fun r => r.carry) id ⟨⟨[], 0⟩⟩
      { spkStereo with locked := true }).locked = false :=
  ⟨(C4_reentrancy_guard { spkStereo with locked := true } envBase
      (fun r => r.carry) id ⟨⟨[], 0⟩⟩ 2 none).1 rfl,
   (C4_reentrancy_guard { spkStereo with locked := true } envBase
      (fun r => r.carry) id ⟨⟨[], 0⟩⟩ 2 none).2.2.2⟩

/-- C6: the fractional phase written back into the resampler state at sink
drop (release of period N) is exactly the phase handed to the resampler
constructed at the next `play` (acquisition of period N+1), for every
frame-shape choice `c` and every negotiation outcome; and channel
reconfiguration (`set_channels`) never modifies the resampler state. -/
theorem C6_phase_continuity (s : Speakers) (sink : SpeakersSink)
    (frameChannels : ResamplerM → List Ch32) (mod1 : ℚ → ℚ)
    (c : Nat) (hw : Option HwParams) (conv : List Ch32 → List Ch32) :
    (sink.drop frameChannels mod1 s).resampler.2 = mod1 sink.resampler.index ∧
    (∀ sink2 s2,
      (sink.drop frameChannels mod1 s).play c hw conv = some (sink2, s2) →
        sink2.resampler.index = mod1 sink.resampler.index) ∧
    (∀ r, s.set_channels c hw = some r → r.2.1.resampler = s.resampler) := by
  refine ⟨rfl, fun sink2 s2 h => ?_, fun r hr =>
    (set_channels_resampler_locked c hw s r hr).1⟩
  unfold Speakers.play at h
  split at h
  · exact absurd h (by simp)
  · exact absurd h (by simp)
  · next ob s3 flag hsc =>
      have hres := (set_channels_resampler_locked c hw _ _ hsc).1
      have h2 := Option.some.inj h
      have hsink : sink2 = ⟨⟨conv s3.resampler.1, s3.resampler.2⟩⟩ :=
        (congrArg Prod.fst h2).symm
      rw [hsink]
      exact congrArg Prod.snd hres

theorem C6_phase_continuity_witness :
    ∀ sink2 s2,
      (SpeakersSink.drop (fun r => r.carry) (fun q => q - ⌊q⌋) ⟨⟨[], 3/2⟩⟩
        spkStereo).play 2 none id = some (sink2, s2) →
        sink2.resampler.index = (3/2 : ℚ) - ⌊(3/2 : ℚ)⌋ :=
  (C6_phase_continuity spkStereo ⟨⟨[], 3/2⟩⟩ (fun r => r.carry)
    (fun q => q - ⌊q⌋) 2 none id).2.1

/-- C7: when `start` fails to obtain pollable descriptors the descriptor set
stays empty and the session value is unchanged (still usable); and with an
empty descriptor set every `poll` of a configured, unlocked session reports
Pending with no native call and an unchanged state (hence every subsequent
invocation reports Pending as well). -/
theorem C7_degraded_mode (d : AudioDevice) (s : Speakers) (env : PollEnv) :
    (d.fds = [] → d.start none = some (none, d)) ∧
    (s.device.fds = [] → s.locked = false → s.channels ≠ 0 →
      s.poll env = ⟨.pending, s, [], []⟩) := by
  constructor
  · intro h
    unfold AudioDevice.start
    simp [h]
  · intro hfds hlock hchan
    unfold Speakers.poll
    rw [hfds]
    simp [hlock, hchan]

theorem C7_degraded_mode_witness :
    devNoFds.start none = some (none, devNoFds) ∧
    Speakers.poll envBase { spkStereo with device := devNoFds } =
      ⟨.pending, { spkStereo with device := devNoFds }, [], []⟩ :=
  ⟨(C7_degraded_mode devNoFds spkStereo envBase).1 rfl,
   (C7_degraded_mode devNoFds { spkStereo with device := devNoFds }
      envBase).2 rfl rfl (by decide)⟩

/-- Refilling a drained buffer back to its original length appends exactly
the drained count of fill values. -/
theorem listResize_drop (l : List Ch32) (m n : Nat) (v : Ch32)
    (h : l.length = n) (hm : m ≤ n) :
    listResize (l.drop m) n v = l.drop m ++ List.replicate m v := by
  unfold listResize
  have hl : (l.drop m).length = n - m := by simp [h]
  split
  · next hle =>
      rw [hl] at hle
      have hm0 : m = 0 := by omega
      subst hm0
      simp [← h]
  · rw [hl, Nat.sub_sub_self hm]

/-- C1: on a successful non-blocking write of `n` frames, `poll` discards
the first `n × channels` samples from the front of the working buffer, sets
the carry index to remaining-samples / channels, refills the buffer to
exactly `period × channels` samples (the remainder staying as the prefix,
padded with mid samples), sets the reentrancy guard and reports Ready. -/
theorem C1_write_success (s : Speakers) (env : PollEnv) (n : Nat)
    (hlock : s.locked = false) (hchan : s.channels ≠ 0)
    (hgate : s.device.fds.all (fun fd => env.shouldYield fd) = false)
    (hw : env.write1 = .ok n)
    (hle : n * s.channels ≤ s.buffer.length) :
    s.poll env = ⟨.ready,
      { s with
        buffer := listResize (s.buffer.drop (n * s.channels))
          (s.period * s.channels) Ch32.MID
        starti := (s.buffer.length - n * s.channels) / s.channels
        locked := true }, [.writei], []⟩ ∧
    (s.poll env).state.buffer.length = s.period * s.channels ∧
    (s.buffer.length = s.period * s.channels →
      (s.poll env).state.buffer =
        s.buffer.drop (n * s.channels) ++
          List.replicate (n * s.channels) Ch32.MID) := by
  have h1 : s.poll env = ⟨.ready,
      { s with
        buffer := listResize (s.buffer.drop (n * s.channels))
          (s.period * s.channels) Ch32.MID
        starti := (s.buffer.length - n * s.channels) / s.channels
        locked := true }, [.writei], []⟩ := by
    unfold Speakers.poll
    simp [hlock, hchan, hgate, hw, shiftBuffer_of_le hle]
  refine ⟨h1, ?_, fun hbuf => ?_⟩
  · rw [h1]
    exact listResize_length _ _ _
  · rw [h1]
    exact listResize_drop s.buffer (n * s.channels) (s.period * s.channels)
      Ch32.MID hbuf (hbuf ▸ hle)

theorem C1_write_success_witness :
    Speakers.poll envBase spkStereo = ⟨.ready,
      { spkStereo with
        buffer := listResize (spkStereo.buffer.drop (1 * spkStereo.channels))
          (spkStereo.period * spkStereo.channels) Ch32.MID
        starti := (spkStereo.buffer.length - 1 * spkStereo.channels) /
          spkStereo.channels
        locked := true }, [.writei], []⟩ :=
  (C1_write_success spkStereo envBase 1 rfl (by decide) (by decide) rfl
    (by decide)).1

/-- The recovery retry never reports Pending. -/
theorem retryTransfer_not_pending (env : PollEnv) (s : Speakers)
    (cs : List NativeCall) :
    (s.retryTransfer env cs).result ≠ .pending := by
  unfold Speakers.retryTransfer
  split
  · simp
  · split
    · simp
    · split <;> simp

/-- `poll` with the guard set: fatal, untouched state, no native calls. -/
theorem poll_of_locked (env : PollEnv) (s : Speakers) (hl : s.locked = true) :
    s.poll env = ⟨.fatal .reentrancy, s, [], []⟩ := by
  unfold Speakers.poll
  simp [hl]

/-- `poll` on an unconfigured session never reports Pending. -/
theorem poll_unconfigured_not_pending (env : PollEnv) (s : Speakers)
    (hl : s.locked = false) (hc : s.channels = 0) :
    (s.poll env).result ≠ .pending := by
  unfold Speakers.poll
  simp only [hl, hc]
  rcases s.device.start env.descriptors with _ | p <;> simp

/-- `poll` when every descriptor reports not-ready: Pending, untouched
state, no native calls, no waker registration. -/
theorem poll_of_gate (env : PollEnv) (s : Speakers)
    (hl : s.locked = false) (hc : s.channels ≠ 0)
    (hg : s.device.fds.all (fun fd => env.shouldYield fd) = true) :
    s.poll env = ⟨.pending, s, [], []⟩ := by
  unfold Speakers.poll
  simp [hl, hc, hg]

/-- `poll` on a would-block (`-EAGAIN`) write: Pending, untouched state,
exactly one write call, waker registered with every descriptor. -/
theorem poll_of_wouldBlock (env : PollEnv) (s : Speakers)
    (hl : s.locked = false) (hc : s.channels ≠ 0)
    (hg : s.device.fds.all (fun fd => env.shouldYield fd) = false)
    (hw : env.write1 = .error (-11)) :
    s.poll env = ⟨.pending, s, [.writei], s.device.fds⟩ := by
  unfold Speakers.poll
  simp [hl, hc, hg, hw]

/-- `poll` on a successful write never reports Pending. -/
theorem poll_write_ok_not_pending (env : PollEnv) (s : Speakers)
    (hl : s.locked = false) (hc : s.channels ≠ 0)
    (hg : s.device.fds.all (fun fd => env.shouldYield fd) = false)
    (n : Nat) (hw : env.write1 = .ok n) :
    (s.poll env).result ≠ .pending := by
  unfold Speakers.poll
  simp only [hl, hc, hg, hw]
  rcases s.shiftBuffer n with _ | s2 <;> simp [hl, hc, hg]

/-- `poll` on a write error other than `-EAGAIN` never reports Pending. -/
theorem poll_error_not_pending (env : PollEnv) (s : Speakers)
    (hl : s.locked = false) (hc : s.channels ≠ 0)
    (hg : s.device.fds.all (fun fd => env.shouldYield fd) = false)
    (e : Int) (hw : env.write1 = .error e) (he : e ≠ -11) :
    (s.poll env).result ≠ .pending := by
  unfold Speakers.poll
  simp [hl, hc, hg, hw, he]
  split
  · rcases env.pcmState <;>
      first
        | exact retryTransfer_not_pending env s _
        | simp
  · split
    · simp
    · split
      · exact retryTransfer_not_pending env s _
      · simp

/-- `poll` on `-EPIPE` with stream state Xrun runs the recovery retry. -/
theorem poll_of_xrun (env : PollEnv) (s : Speakers)
    (hl : s.locked = false) (hc : s.channels ≠ 0)
    (hg : s.device.fds.all (fun fd => env.shouldYield fd) = false)
    (hw : env.write1 = .error (-32)) (hst : env.pcmState = .xrun) :
    s.poll env = s.retryTransfer env [.writei, .stateQuery] := by
  unfold Speakers.poll
  simp [hl, hc, hg, hw, hst]

/-- `poll` on `-ESTRPIPE` runs resume and then the recovery retry. -/
theorem poll_of_suspended (env : PollEnv) (s : Speakers)
    (hl : s.locked = false) (hc : s.channels ≠ 0)
    (hg : s.device.fds.all (fun fd => env.shouldYield fd) = false)
    (hw : env.write1 = .error (-86)) :
    s.poll env = s.retryTransfer env [.writei, .resume] := by
  unfold Speakers.poll
  simp [hl, hc, hg, hw]

/-- Call trace of a recovery retry whose `prepare` succeeded. -/
theorem retryTransfer_calls (env : PollEnv) (s : Speakers)
    (hprep : env.prepareResult = .ok ()) (cs : List NativeCall) :
    (s.retryTransfer env cs).calls = cs ++ [.prepare, .writei] := by
  unfold Speakers.retryTransfer
  rw [hprep]
  cases hw2 : env.write2 with
  | error e => simp [hw2]
  | ok m => cases hsb : s.shiftBuffer m <;> simp [hw2, hsb]

/-- A successful recovery retry reports Ready. -/
theorem retryTransfer_ready (env : PollEnv) (s : Speakers)
    (hprep : env.prepareResult = .ok ()) (m : Nat)
    (hm : env.write2 = .ok m) (hmle : m * s.channels ≤ s.buffer.length)
    (cs : List NativeCall) :
    (s.retryTransfer env cs).result = .ready := by
  unfold Speakers.retryTransfer
  simp [hprep, hm, shiftBuffer_of_le hmle]

/-- A failed recovery retry is fatal. -/
theorem retryTransfer_fatal (env : PollEnv) (s : Speakers)
    (hprep : env.prepareResult = .ok ()) (e : Int)
    (he : env.write2 = .error e) (cs : List NativeCall) :
    (s.retryTransfer env cs).result = .fatal .retryUnwrap := by
  unfold Speakers.retryTransfer
  simp [hprep, he]

/-- C2: a `-EPIPE` fault whose stream state is Xrun triggers exactly one
prepare-and-retry cycle (one state query, one prepare, one retried write);
a `-ESTRPIPE` (suspended) fault triggers a best-effort resume whose own
outcome is ignored, then the same single prepare-and-retry cycle; in both
cases a successful retry yields Ready and a failed retry is fatal. -/
theorem C2_fault_recovery (s : Speakers) (env : PollEnv)
    (hlock : s.locked = false) (hchan : s.channels ≠ 0)
    (hgate : s.device.fds.all (fun fd => env.shouldYield fd) = false)
    (hprep : env.prepareResult = .ok ()) :
    (env.write1 = .error (-32) → env.pcmState = .xrun →
      (s.poll env).calls = [.writei, .stateQuery, .prepare, .writei] ∧
      (∀ m, env.write2 = .ok m → m * s.channels ≤ s.buffer.length →
        (s.poll env).result = .ready) ∧
      (∀ e, env.write2 = .error e →
        (s.poll env).result = .fatal .retryUnwrap)) ∧
    (env.write1 = .error (-86) →
      (s.poll env).calls = [.writei, .resume, .prepare, .writei] ∧
      (∀ r r', Speakers.poll { env with resumeResult := r } s =
        Speakers.poll { env with resumeResult := r' } s) ∧
      (∀ m, env.write2 = .ok m → m * s.channels ≤ s.buffer.length →
        (s.poll env).result = .ready) ∧
      (∀ e, env.write2 = .error e →
        (s.poll env).result = .fatal .retryUnwrap)) := by
  constructor
  · intro h1 h2
    rw [poll_of_xrun env s hlock hchan hgate h1 h2]
    exact ⟨retryTransfer_calls env s hprep _,
      fun m hm hmle => retryTransfer_ready env s hprep m hm hmle _,
      fun e he => retryTransfer_fatal env s hprep e he _⟩
  · intro h1
    rw [poll_of_suspended env s hlock hchan hgate h1]
    exact ⟨retryTransfer_calls env s hprep _, fun r r' => rfl,
      fun m hm hmle => retryTransfer_ready env s hprep m hm hmle _,
      fun e he => retryTransfer_fatal env s hprep e he _⟩

theorem C2_fault_recovery_witness :
    (Speakers.poll envXrun spkStereo).calls =
      [.writei, .stateQuery, .prepare, .writei] ∧
    (Speakers.poll envXrun spkStereo).result = .ready ∧
    (Speakers.poll envSusp spkStereo).result = .fatal .retryUnwrap :=
  ⟨((C2_fault_recovery spkStereo envXrun rfl (by decide) (by decide)
      rfl).1 rfl rfl).1,
   ((C2_fault_recovery spkStereo envXrun rfl (by decide) (by decide)
      rfl).1 rfl rfl).2.1 1 rfl (by decide),
   ((C2_fault_recovery spkStereo envSusp rfl (by decide) (by decide)
      rfl).2 rfl).2.2.2 (-32) rfl⟩

/-- C3: `poll` reports Pending in exactly two situations — every registered
descriptor reports not-ready (then no native call is made and the state is
untouched), or the non-blocking write would block with `-EAGAIN` (then the
waker is registered with every descriptor, exactly one write call was made
and no retry occurs). -/
theorem C3_pending_characterization (s : Speakers) (env : PollEnv) :
    ((s.poll env).result = .pending ↔
      s.locked = false ∧ s.channels ≠ 0 ∧
        (s.device.fds.all (fun fd => env.shouldYield fd) = true ∨
          env.write1 = .error (-11))) ∧
    (s.locked = false → s.channels ≠ 0 →
      s.device.fds.all (fun fd => env.shouldYield fd) = true →
      s.poll env = ⟨.pending, s, [], []⟩) ∧
    (s.locked = false → s.channels ≠ 0 →
      s.device.fds.all (fun fd => env.shouldYield fd) = false →
      env.write1 = .error (-11) →
      s.poll env = ⟨.pending, s, [.writei], s.device.fds⟩) := by
  refine ⟨⟨fun h => ?_, fun h => ?_⟩, fun hl hc hg => poll_of_gate env s hl hc hg,
    fun hl hc hg hw => poll_of_wouldBlock env s hl hc hg hw⟩
  · by_cases hl : s.locked = true
    · rw [poll_of_locked env s hl] at h
      simp at h
    · have hl' : s.locked = false := by simpa using hl
      by_cases hc : s.channels = 0
      · exact absurd h (poll_unconfigured_not_pending env s hl' hc)
      · by_cases hg : s.device.fds.all (fun fd => env.shouldYield fd) = true
        · exact ⟨hl', hc, Or.inl hg⟩
        · have hg' : s.device.fds.all (fun fd => env.shouldYield fd) = false :=
            by simpa using hg
          rcases hw : env.write1 with e | n
          · by_cases he : e = -11
            · subst he
              exact ⟨hl', hc, Or.inr rfl⟩
            · exact absurd h (poll_error_not_pending env s hl' hc hg' e hw he)
          · exact absurd h (poll_write_ok_not_pending env s hl' hc hg' n hw)
  · obtain ⟨hl, hc, hor⟩ := h
    rcases hor with hg | hw
    · rw [poll_of_gate env s hl hc hg]
    · by_cases hg : s.device.fds.all (fun fd => env.shouldYield fd) = true
      · rw [poll_of_gate env s hl hc hg]
      · have hg' : s.device.fds.all (fun fd => env.shouldYield fd) = false :=
          by simpa using hg
        rw [poll_of_wouldBlock env s hl hc hg' hw]

theorem C3_pending_characterization_witness :
    Speakers.poll envAllYield spkStereo = ⟨.pending, spkStereo, [], []⟩ ∧
    Speakers.poll envEagain spkStereo =
      ⟨.pending, spkStereo, [.writei], spkStereo.device.fds⟩ :=
  ⟨(C3_pending_characterization spkStereo envAllYield).2.1 rfl (by decide)
      (by decide),
   (C3_pending_characterization spkStereo envEagain).2.2 rfl (by decide)
      (by decide) rfl⟩

/-- The device pushed by one iteration of the source loop agrees with the
spec-side per-hint outcome. -/
theorem processHint_fst (input : Bool)
    (openOf : Nat → Option (Nat × Nat × Nat)) (i : Nat) (h : Hint) :
    (processHint input (openOf i) i h).1 = enumerateSpecHint input openOf i h := by
  rcases h with ⟨name, desc, ioid⟩
  rcases name with _ | x
  · by_cases hdir : (input && Hint.isInput ⟨none, desc, ioid⟩) ||
        (!input && Hint.isOutput ⟨none, desc, ioid⟩)
    · rcases ho : openOf i with _ | t <;>
        simp [processHint, enumerateSpecHint, Hint.filtered, hdir, ho]
    · simp [processHint, enumerateSpecHint, Hint.filtered, hdir]
  · by_cases hf : (strStartsWith x "sysdefault" || x = "null") = true
    · simp [processHint, enumerateSpecHint, Hint.filtered, hf]
    · by_cases hdir : (input && Hint.isInput ⟨some x, desc, ioid⟩) ||
          (!input && Hint.isOutput ⟨some x, desc, ioid⟩)
      · by_cases hx : x = "default"
        · subst hx
          have hs : strStartsWith "default" "sysdefault" = false := by decide
          rcases ho : openOf i with _ | t <;>
            simp [processHint, enumerateSpecHint, Hint.filtered, hs, hdir, ho]
        · have hor : (strStartsWith x "sysdefault" = false) ∧ ¬(x = "null") := by
            constructor
            · by_contra hc
              exact hf (by simp [Bool.not_eq_false] at hc; simp [hc])
            · intro hc
              exact hf (by simp [hc])
          rcases ho : openOf i with _ | t <;>
            simp [processHint, enumerateSpecHint, Hint.filtered, hor.1, hor.2,
              hdir, ho, hx]
      · by_cases hx : x = "default"
        · subst hx
          have hs : strStartsWith "default" "sysdefault" = false := by decide
          simp [processHint, enumerateSpecHint, Hint.filtered, hs, hdir]
        · have hor : (strStartsWith x "sysdefault" = false) ∧ ¬(x = "null") := by
            constructor
            · by_contra hc
              exact hf (by simp [Bool.not_eq_false] at hc; simp [hc])
            · intro hc
              exact hf (by simp [hc])
          simp [processHint, enumerateSpecHint, Hint.filtered, hor.1, hor.2,
            hdir, hx]

/-- The source loop from index `i` equals the spec-side filter-map over the
hints indexed from `i`. -/
theorem hintLoop_fst (input : Bool) (openOf : Nat → Option (Nat × Nat × Nat)) :
    ∀ (hs : List Hint) (i : Nat),
      (hintLoop input openOf i hs).1 =
        (hs.enumFrom i).filterMap fun ih =>
          enumerateSpecHint input openOf ih.1 ih.2 := by
  intro hs
  induction hs with
  | nil => intro i; rfl
  | cons h rest ih =>
      intro i
      show (hintLoop input openOf i (h :: rest)).1 = _
      unfold hintLoop
      rcases hp : processHint input (openOf i) i h with ⟨dev, events⟩
      have hfst : dev = enumerateSpecHint input openOf i h := by
        have := processHint_fst input openOf i h
        rw [hp] at this
        exact this
      simp only [List.enumFrom, List.filterMap_cons]
      rw [← hfst]
      rcases dev with _ | d
      · simpa using ih (i + 1)
      · simpa using ih (i + 1)

/-- C8: enumeration equals its specification — no device is built from a
hint whose name starts with "sysdefault" or is "null"; the "default" hint is
displayed as "Default"; every other returned device's display name is the
hint's description with newlines replaced by ": "; only hints matching the
requested direction are attempted; and a hint that fails to open is silently
excluded while enumeration continues.  A failed hint query enumerates
nothing. -/
theorem C8_enumeration_matches_spec (input : Bool)
    (openOf : Nat → Option (Nat × Nat × Nat)) (hints : List Hint) :
    (device_list_internal input openOf (some hints)).1 =
      enumerateSpec input openOf hints ∧
    (device_list_internal input openOf none).1 = [] := by
  constructor
  · show (hintLoop input openOf 0 hints).1 = _
    rw [hintLoop_fst input openOf hints 0]
    rfl
  · rfl

/-- The spec's scenario test property, checked on both the source loop and
the spec-side description: the four-hint list enumerates exactly the devices
named "Default" and "USB Audio". -/
theorem scenario_enumeration :
    ((device_list_internal false (fun _ => some (7, 8, 3))
      (some scenarioHints)).1.map AudioDevice.name) = ["Default", "USB Audio"] ∧
    ((enumerateSpec false (fun _ => some (7, 8, 3))
      scenarioHints).map AudioDevice.name) = ["Default", "USB Audio"] := by
  exact ⟨by decide, by decide⟩

/-- C9 (refuted by the code): on the early-filter paths the per-hint NAME
and IOID strings are allocated but never freed — the `continue` for
"sysdefault"/"null" entries skips both `free` calls — while a non-filtered
hint (even one that fails to open) leaks nothing and the hint list itself is
freed. -/
theorem C9_filtered_hint_leaks :
    leakedAllocs (device_list_internal false (fun _ => none)
      (some [sysdefaultHint])).2 = [.nameStr 0, .ioidStr 0] ∧
    leakedAllocs (device_list_internal false (fun _ => none)
      (some [failingOpenHint])).2 = [] ∧
    AllocEvent.free .hintList ∈
      (device_list_internal false (fun _ => none) (some [sysdefaultHint])).2 := by
  refine ⟨by decide, by decide, by decide⟩

end Wavy
